import Mathlib

/-!
Verification of the menu-rotation core of `menu.py` (repository
SkriptSparrow/menu_bot): the rotation engine `create_daily_menu` and the
daily cache `generate_daily_menu_if_needed`, shallowly embedded as pure
Lean functions with explicit state passing.

Modelling decisions:
* The module globals `menu_counter : int`, `daily_menu`, `last_generated_date`
  become an explicit `BotState` record threaded through the functions.
* Calendar dates are modelled as `Nat` (only equality of dates matters).
* `random.choice(seq)` is modelled by `randomChoice seq k` where `k` is an
  externally supplied random index; Python's uniform draw over `range(len(seq))`
  is represented by reducing `k` modulo the length.  On an empty sequence
  `random.choice` raises `IndexError`; this is the `none` result.
* Exceptions become `Except MenuError` results: `IndexError` from
  `random.choice([])` and `ValueError(msg)` from the explicit `raise`.
* All string literals are copied codepoint-for-codepoint from `menu.py`
  (the file stores the Russian labels in a double-encoded form; the escapes
  below reproduce the file's exact characters).
-/

/-- A menu item: the dictionaries stored in the catalog lists, with the
fields read by `send_item` (`name`, `info`, `calories`, `image`).  Only
`name` is inspected by the rotation logic. -/
structure FoodItem where
  name : String
  info : String
  calories : String
  image : String
  deriving DecidableEq, Repr

/-- A daily selection: the list of `(label, item)` tuples returned by
`create_daily_menu`. -/
abbrev DailySelection := List (String × FoodItem)

/-- The catalog `menu_info`: one ordered sequence of items per category key.
These are the five keys the rotation engine reads. -/
structure MenuInfo where
  appetizers : List FoodItem
  proteins : List FoodItem
  fiber : List FoodItem
  carbohydrates : List FoodItem
  sauces : List FoodItem
  deriving DecidableEq, Repr

/-- The exceptions the rotation engine can raise: `IndexError` from
`random.choice` on an empty sequence, and `ValueError(msg)` from the
explicit `raise` in the pairing rule. -/
inductive MenuError where
  | indexError : MenuError
  | valueError : String → MenuError
  deriving DecidableEq, Repr

/-- Label of the cheat-meal pair, line 76 of `menu.py`. -/
def cheatLabel : String := "ü•™ –ß–∏—Ç–º–∏–ª"

/-- Label of the protein pair, line 84 of `menu.py`. -/
def meatLabel : String := "üçñ –ú—è—Å–Ω–æ–µ"

/-- Label of the salad pair, line 85 of `menu.py`. -/
def saladLabel : String := "ü•ó –°–∞–ª–∞—Ç"

/-- Label of the garnish pair, line 102 of `menu.py`. -/
def garnishLabel : String := "ü•î –ì–∞—Ä–Ω–∏—Ä"

/-- Label of the sauce pair, line 103 of `menu.py`. -/
def sauceLabel : String := "üçØ –°–æ—É—Å"

/-- The Borscht sentinel compared against the garnish name, line 90. -/
def borschtName : String := "–ë–æ—Ä—â"

/-- The Sour-Cream sentinel searched for among the sauces, line 93. -/
def smetanaName : String := "–°–º–µ—Ç–∞–Ω–∞"

/-- The message of the `ValueError` raised when the Sour-Cream item is
missing, lines 97-98 ("Sour Cream not found in the list of sauces!"). -/
def sauceNotFoundMsg : String := "–°–º–µ—Ç–∞–Ω–∞ –Ω–µ –Ω–∞–π–¥–µ–Ω–∞ –≤ —Å–ø–∏—Å–∫–µ —Å–æ—É—Å–æ–≤!"

/-- `random.choice(l)` with the random draw supplied externally as `k`:
uniform choice of an index below `l.length`, modelled by `k % l.length`.
Returns `none` (Python: raises `IndexError`) on the empty list. -/
def randomChoice (l : List FoodItem) (k : Nat) : Option FoodItem :=
  l[k % l.length]?

/-- `create_daily_menu(menu_info)`, lines 55-104 of `menu.py`, as a function
of the pre-call counter.  The body first runs `menu_counter += 1`; every
later read of the global is therefore `menu_counter + 1` here.  The result
pairs the post-call value of the global counter with the returned selection
(or the raised exception).  `k1` feeds the first `random.choice` of the
taken branch and `k2` the second. -/
def create_daily_menu (menu_counter : Nat) (menu_info : MenuInfo) (k1 k2 : Nat) :
    Nat × Except MenuError DailySelection :=
  -- menu_counter += 1; every 21st iteration: cheat meal, reset the counter.
  if (menu_counter + 1) % 21 = 0 then
    match randomChoice menu_info.appetizers k1 with
    | none => (menu_counter + 1, Except.error MenuError.indexError)
    | some appetizers_item => (0, Except.ok [(cheatLabel, appetizers_item)])
  else
    if (menu_counter + 1) % 4 ≠ 0 then
      match randomChoice menu_info.proteins k1 with
      | none => (menu_counter + 1, Except.error MenuError.indexError)
      | some meat_item =>
        match randomChoice menu_info.fiber k2 with
        | none => (menu_counter + 1, Except.error MenuError.indexError)
        | some salad_item =>
          (menu_counter + 1, Except.ok [(meatLabel, meat_item), (saladLabel, salad_item)])
    else
      match randomChoice menu_info.carbohydrates k1 with
      | none => (menu_counter + 1, Except.error MenuError.indexError)
      | some garnish_item =>
        if garnish_item.name = borschtName then
          match menu_info.sauces.find? (fun s => s.name == smetanaName) with
          | none => (menu_counter + 1, Except.error (MenuError.valueError sauceNotFoundMsg))
          | some sauce_item =>
            (menu_counter + 1, Except.ok [(garnishLabel, garnish_item), (sauceLabel, sauce_item)])
        else
          match randomChoice menu_info.sauces k2 with
          | none => (menu_counter + 1, Except.error MenuError.indexError)
          | some sauce_item =>
            (menu_counter + 1, Except.ok [(garnishLabel, garnish_item), (sauceLabel, sauce_item)])

/-- The three module globals mutated by the core: `menu_counter`,
`daily_menu` and `last_generated_date` (lines 14-18 of `menu.py`). -/
structure BotState where
  menu_counter : Nat
  daily_menu : Option DailySelection
  last_generated_date : Option Nat
  deriving DecidableEq, Repr

/-- The guard of line 124: `last_generated_date == today and daily_menu is
not None`. -/
def cache_hit (st : BotState) (today : Nat) : Bool :=
  st.last_generated_date == some today && st.daily_menu.isSome

/-- Number of `create_daily_menu` invocations one
`generate_daily_menu_if_needed` call performs from state `st` on date
`today`: the engine runs exactly when the line-124 guard fails. -/
def engine_calls (st : BotState) (today : Nat) : Nat :=
  if cache_hit st today then 0 else 1

/-- `generate_daily_menu_if_needed(menu_info)`, lines 107-130, as a state
transformer.  On a cache hit the state is untouched and the cached menu is
returned.  Otherwise `create_daily_menu` runs (mutating the counter); on
success the cache fields are updated, on an exception the error propagates
before the assignments of lines 128-129, leaving the cache fields as they
were. -/
def generate_daily_menu_if_needed (st : BotState) (today : Nat) (menu_info : MenuInfo)
    (k1 k2 : Nat) : BotState × Except MenuError DailySelection :=
  if cache_hit st today then
    (st, Except.ok (st.daily_menu.getD []))
  else
    match create_daily_menu st.menu_counter menu_info k1 k2 with
    | (c, Except.ok menu) =>
        ({ menu_counter := c, daily_menu := some menu, last_generated_date := some today },
         Except.ok menu)
    | (c, Except.error e) =>
        ({ st with menu_counter := c }, Except.error e)

/-- The full module state of `menu.py` including the read-only catalog
global `menu_data`, used to state the frame property of the rotation
engine. -/
structure ProcState where
  menu_data : MenuInfo
  menu_counter : Nat
  daily_menu : Option DailySelection
  last_generated_date : Option Nat
  deriving DecidableEq, Repr

/-- `create_daily_menu` viewed as a transformer of the full module state:
its only `global` declaration is `menu_counter` (line 69), and the body
only reads `menu_info`. -/
def create_daily_menu_proc (st : ProcState) (k1 k2 : Nat) :
    ProcState × Except MenuError DailySelection :=
  ({ st with menu_counter := (create_daily_menu st.menu_counter st.menu_data k1 k2).1 },
   (create_daily_menu st.menu_counter st.menu_data k1 k2).2)

/-- The catalog input contract of spec sections 4.1 and 6: every category the
engine may draw from is non-empty, and a Sour-Cream sauce exists whenever
the carbohydrates can produce a Borscht garnish. -/
def ValidCatalog (mi : MenuInfo) : Prop :=
  mi.appetizers ≠ [] ∧ mi.proteins ≠ [] ∧ mi.fiber ≠ [] ∧
    mi.carbohydrates ≠ [] ∧ mi.sauces ≠ [] ∧
    ((∃ g ∈ mi.carbohydrates, g.name = borschtName) →
      ∃ s ∈ mi.sauces, s.name = smetanaName)

instance : DecidablePred ValidCatalog := fun mi => by
  unfold ValidCatalog; infer_instance

/-! Concrete items and catalogs used by witnesses and counterexamples. -/

def itemApp : FoodItem := ⟨"Bruschetta", "bread", "150", "app.jpg"⟩

def itemMeat : FoodItem := ⟨"Chicken", "fillet", "220", "meat.jpg"⟩

def itemSalad : FoodItem := ⟨"Greek", "veggies", "90", "salad.jpg"⟩

def itemRice : FoodItem := ⟨"Rice", "grain", "130", "rice.jpg"⟩

def itemBorscht : FoodItem := ⟨borschtName, "beet soup", "180", "borscht.jpg"⟩

def itemSmetana : FoodItem := ⟨smetanaName, "dairy", "60", "smetana.jpg"⟩

def itemGarlic : FoodItem := ⟨"Garlic Sauce", "garlic", "110", "garlic.jpg"⟩

/-- A catalog satisfying the full input contract. -/
def sampleCatalog : MenuInfo :=
  { appetizers := [itemApp]
    proteins := [itemMeat]
    fiber := [itemSalad]
    carbohydrates := [itemRice, itemBorscht]
    sauces := [itemGarlic, itemSmetana] }

/-- A catalog whose only carbohydrate is Borscht and whose sauces lack the
Sour-Cream item (the concrete scenario of spec section 8). -/
def borschtNoCreamCatalog : MenuInfo :=
  { appetizers := [itemApp]
    proteins := [itemMeat]
    fiber := [itemSalad]
    carbohydrates := [itemBorscht]
    sauces := [itemGarlic] }

/-- A catalog with an empty proteins category. -/
def emptyProteinsCatalog : MenuInfo :=
  { appetizers := [itemApp]
    proteins := []
    fiber := [itemSalad]
    carbohydrates := [itemRice]
    sauces := [itemGarlic, itemSmetana] }

example : ValidCatalog sampleCatalog := by decide

example : create_daily_menu 20 sampleCatalog 0 0 = (0, Except.ok [(cheatLabel, itemApp)]) := rfl

example : create_daily_menu 0 sampleCatalog 0 0 =
    (1, Except.ok [(meatLabel, itemMeat), (saladLabel, itemSalad)]) := rfl

example : create_daily_menu 3 sampleCatalog 1 0 =
    (4, Except.ok [(garnishLabel, itemBorscht), (sauceLabel, itemSmetana)]) := rfl

example : create_daily_menu 3 borschtNoCreamCatalog 0 0 =
    (4, Except.error (MenuError.valueError sauceNotFoundMsg)) := rfl

/-- The branch taken by `create_daily_menu` at pre-call counter `c` requires
a category that is empty in `mi`: `appetizers` for the cheat branch,
`proteins`/`fiber` for the protein branch, `carbohydrates`/`sauces` for the
garnish branch. -/
def required_category_empty (c : Nat) (mi : MenuInfo) : Prop :=
  ((c + 1) % 21 = 0 ∧ mi.appetizers = []) ∨
  ((c + 1) % 21 ≠ 0 ∧ (c + 1) % 4 ≠ 0 ∧ (mi.proteins = [] ∨ mi.fiber = [])) ∨
  ((c + 1) % 21 ≠ 0 ∧ (c + 1) % 4 = 0 ∧ (mi.carbohydrates = [] ∨ mi.sauces = []))

instance (c : Nat) (mi : MenuInfo) : Decidable (required_category_empty c mi) := by
  unfold required_category_empty
  infer_instance

/-- A reachable state whose cache already holds the menu of date 7: the
result of one `generate_daily_menu_if_needed` call on date 7 from counter 4
with an empty cache. -/
def preCachedState : BotState :=
  (generate_daily_menu_if_needed ⟨4, none, none⟩ 7 sampleCatalog 0 0).1

/-! ### Helper lemmas about the rotation engine -/

theorem randomChoice_of_ne_nil (l : List FoodItem) (k : Nat) (h : l ≠ []) :
    ∃ a ∈ l, randomChoice l k = some a := by
  have hl : 0 < l.length := List.length_pos.mpr h
  have hlt : k % l.length < l.length := Nat.mod_lt _ hl
  exact ⟨l[k % l.length], List.getElem_mem hlt,
    by simp [randomChoice, List.getElem?_eq_getElem hlt]⟩

theorem randomChoice_nil (k : Nat) : randomChoice [] k = none := rfl

theorem create_error_counter {c : Nat} {mi : MenuInfo} {k1 k2 : Nat} {c' : Nat} {e : MenuError}
    (h : create_daily_menu c mi k1 k2 = (c', Except.error e)) : c' = c + 1 := by
  unfold create_daily_menu at h
  repeat' split at h
  all_goals first
    | (injection h with h1 h2; exact h1.symm)
    | (injection h with h1 h2; injection h2)

theorem create_counter_of_not_reset (c : Nat) (mi : MenuInfo) (k1 k2 : Nat)
    (h21 : (c + 1) % 21 ≠ 0) : (create_daily_menu c mi k1 k2).1 = c + 1 := by
  unfold create_daily_menu
  rw [if_neg h21]
  repeat' split
  all_goals rfl

theorem create_ok_of_valid {mi : MenuInfo} (hv : ValidCatalog mi) (c k1 k2 : Nat) :
    ∃ sel, create_daily_menu c mi k1 k2 =
      ((if (c + 1) % 21 = 0 then 0 else c + 1), Except.ok sel) := by
  obtain ⟨ha, hp, hf, hc, hs, hpair⟩ := hv
  by_cases h21 : (c + 1) % 21 = 0
  · obtain ⟨a, hamem, hae⟩ := randomChoice_of_ne_nil mi.appetizers k1 ha
    exact ⟨[(cheatLabel, a)], by simp [create_daily_menu, h21, hae]⟩
  · by_cases h4 : (c + 1) % 4 = 0
    · obtain ⟨g, hgmem, hge⟩ := randomChoice_of_ne_nil mi.carbohydrates k1 hc
      by_cases hb : g.name = borschtName
      · obtain ⟨s, hsmem, hsname⟩ := hpair ⟨g, hgmem, hb⟩
        have hfind : (mi.sauces.find? (fun x => x.name == smetanaName)).isSome := by
          rw [List.find?_isSome]
          exact ⟨s, hsmem, by simp [hsname]⟩
        obtain ⟨s', hs'⟩ := Option.isSome_iff_exists.mp hfind
        exact ⟨[(garnishLabel, g), (sauceLabel, s')],
          by simp [create_daily_menu, h21, h4, hge, hb, hs']⟩
      · obtain ⟨s, hsmem, hse⟩ := randomChoice_of_ne_nil mi.sauces k2 hs
        exact ⟨[(garnishLabel, g), (sauceLabel, s)],
          by simp [create_daily_menu, h21, h4, hge, hb, hse]⟩
    · obtain ⟨m, hmmem, hme⟩ := randomChoice_of_ne_nil mi.proteins k1 hp
      obtain ⟨f, hfmem, hfe⟩ := randomChoice_of_ne_nil mi.fiber k2 hf
      exact ⟨[(meatLabel, m), (saladLabel, f)],
        by simp [create_daily_menu, h21, h4, hme, hfe]⟩

/-! ### Claim theorems -/

/-- C1: for every counter `c` with `(c+1) % 21 = 0` and non-empty
`appetizers`, one `create_daily_menu` call returns a single pair labelled
with the cheat-meal label whose item comes from `appetizers`, and the
counter after the call is 0 (the reset overrides the increment). -/
theorem cheat_meal_branch (c : Nat) (mi : MenuInfo) (k1 k2 : Nat)
    (h21 : (c + 1) % 21 = 0) (ha : mi.appetizers ≠ []) :
    ∃ a ∈ mi.appetizers,
      create_daily_menu c mi k1 k2 = (0, Except.ok [(cheatLabel, a)]) := by
  obtain ⟨a, hamem, hae⟩ := randomChoice_of_ne_nil mi.appetizers k1 ha
  exact ⟨a, hamem, by simp [create_daily_menu, h21, hae]⟩

/-- Witness for C1 at counter 20 and a concrete catalog. -/
theorem cheat_meal_branch_witness :
    ∃ a ∈ sampleCatalog.appetizers,
      create_daily_menu 20 sampleCatalog 0 0 = (0, Except.ok [(cheatLabel, a)]) :=
  cheat_meal_branch 20 sampleCatalog 0 0 (by decide) (by decide)

/-- C2: for every counter `c` with `(c+1) % 21 ≠ 0` and `(c+1) % 4 ≠ 0` and
non-empty `proteins` and `fiber`, one `create_daily_menu` call returns two
pairs, first the protein label with an item from `proteins`, then the salad
label with an item from `fiber`, and the counter after the call is `c+1`. -/
theorem protein_salad_branch (c : Nat) (mi : MenuInfo) (k1 k2 : Nat)
    (h21 : (c + 1) % 21 ≠ 0) (h4 : (c + 1) % 4 ≠ 0)
    (hp : mi.proteins ≠ []) (hf : mi.fiber ≠ []) :
    ∃ m ∈ mi.proteins, ∃ s ∈ mi.fiber,
      create_daily_menu c mi k1 k2 =
        (c + 1, Except.ok [(meatLabel, m), (saladLabel, s)]) := by
  obtain ⟨m, hmmem, hme⟩ := randomChoice_of_ne_nil mi.proteins k1 hp
  obtain ⟨s, hsmem, hse⟩ := randomChoice_of_ne_nil mi.fiber k2 hf
  exact ⟨m, hmmem, s, hsmem, by simp [create_daily_menu, h21, h4, hme, hse]⟩

/-- Witness for C2 at counter 0 and a concrete catalog. -/
theorem protein_salad_branch_witness :
    ∃ m ∈ sampleCatalog.proteins, ∃ s ∈ sampleCatalog.fiber,
      create_daily_menu 0 sampleCatalog 0 0 =
        (1, Except.ok [(meatLabel, m), (saladLabel, s)]) :=
  protein_salad_branch 0 sampleCatalog 0 0 (by decide) (by decide) (by decide) (by decide)

/-- C3 counterexample: with non-empty `carbohydrates` and `sauces` but the
chosen garnish named Borscht and no Sour-Cream sauce present, the call does
NOT return two pairs; it raises the configuration `ValueError`, so the claim
as stated (return for every non-empty catalog) is false. -/
theorem garnish_sauce_counterexample :
    borschtNoCreamCatalog.carbohydrates ≠ [] ∧ borschtNoCreamCatalog.sauces ≠ [] ∧
    (3 + 1) % 21 ≠ 0 ∧ (3 + 1) % 4 = 0 ∧
    create_daily_menu 3 borschtNoCreamCatalog 0 0 =
      (4, Except.error (MenuError.valueError sauceNotFoundMsg)) :=
  ⟨by decide, by decide, by decide, by decide, rfl⟩

/-- C3 (amended): additionally assuming the pairing configuration of spec
section 6 — some `sauces` item is named Sour Cream whenever some
`carbohydrates` item is named Borscht — the branch returns exactly two pairs
labelled garnish and sauce, the garnish from `carbohydrates`, and whenever
the garnish is named Borscht the sauce is a `sauces` item named Sour
Cream. -/
theorem garnish_sauce_branch (c : Nat) (mi : MenuInfo) (k1 k2 : Nat)
    (h21 : (c + 1) % 21 ≠ 0) (h4 : (c + 1) % 4 = 0)
    (hc : mi.carbohydrates ≠ []) (hs : mi.sauces ≠ [])
    (hpair : (∃ g ∈ mi.carbohydrates, g.name = borschtName) →
      ∃ s ∈ mi.sauces, s.name = smetanaName) :
    ∃ g ∈ mi.carbohydrates, ∃ s ∈ mi.sauces,
      create_daily_menu c mi k1 k2 =
        (c + 1, Except.ok [(garnishLabel, g), (sauceLabel, s)]) ∧
      (g.name = borschtName → s.name = smetanaName) := by
  obtain ⟨g, hgmem, hge⟩ := randomChoice_of_ne_nil mi.carbohydrates k1 hc
  by_cases hb : g.name = borschtName
  · obtain ⟨s, hsmem, hsname⟩ := hpair ⟨g, hgmem, hb⟩
    have hfind : (mi.sauces.find? (fun x => x.name == smetanaName)).isSome := by
      rw [List.find?_isSome]
      exact ⟨s, hsmem, by simp [hsname]⟩
    obtain ⟨s', hs'⟩ := Option.isSome_iff_exists.mp hfind
    have hs'mem : s' ∈ mi.sauces := List.mem_of_find?_eq_some hs'
    have hs'name : s'.name = smetanaName := by
      have := List.find?_some hs'
      simpa using this
    refine ⟨g, hgmem, s', hs'mem, ?_, fun _ => hs'name⟩
    simp [create_daily_menu, h21, h4, hge, hb, hs']
  · obtain ⟨s, hsmem, hse⟩ := randomChoice_of_ne_nil mi.sauces k2 hs
    refine ⟨g, hgmem, s, hsmem, ?_, fun hgb => absurd hgb hb⟩
    simp [create_daily_menu, h21, h4, hge, hb, hse]

/-- Witness for the amended C3: counter 3 with random index 1 picks the
Borscht garnish from the concrete catalog and pairs it with Sour Cream. -/
theorem garnish_sauce_branch_witness :
    ∃ g ∈ sampleCatalog.carbohydrates, ∃ s ∈ sampleCatalog.sauces,
      create_daily_menu 3 sampleCatalog 1 0 =
        (4, Except.ok [(garnishLabel, g), (sauceLabel, s)]) ∧
      (g.name = borschtName → s.name = smetanaName) :=
  garnish_sauce_branch 3 sampleCatalog 1 0 (by decide) (by decide) (by decide)
    (by decide) (by decide)

/-- C4: in the garnish branch, if the chosen carbohydrate item is named
Borscht and no `sauces` item is named Sour Cream, `create_daily_menu`
raises the descriptive `ValueError` and returns no selection — it does not
fall back to a random sauce. -/
theorem missing_sour_cream_error (c : Nat) (mi : MenuInfo) (k1 k2 : Nat) (g : FoodItem)
    (h21 : (c + 1) % 21 ≠ 0) (h4 : (c + 1) % 4 = 0)
    (hg : randomChoice mi.carbohydrates k1 = some g) (hb : g.name = borschtName)
    (hnone : ∀ s ∈ mi.sauces, s.name ≠ smetanaName) :
    create_daily_menu c mi k1 k2 =
      (c + 1, Except.error (MenuError.valueError sauceNotFoundMsg)) := by
  have hfind : mi.sauces.find? (fun s => s.name == smetanaName) = none :=
    List.find?_eq_none.mpr (fun s hsmem => by simp [hnone s hsmem])
  simp [create_daily_menu, h21, h4, hg, hb, hfind]

/-- Witness for C4 on the concrete Borscht-without-Sour-Cream catalog. -/
theorem missing_sour_cream_error_witness :
    create_daily_menu 3 borschtNoCreamCatalog 0 0 =
      (3 + 1, Except.error (MenuError.valueError sauceNotFoundMsg)) :=
  missing_sour_cream_error 3 borschtNoCreamCatalog 0 0 itemBorscht (by decide)
    (by decide) rfl rfl (by decide)

/-- C5 counterexample: from a reachable state whose cache already holds
today's menu, two further same-date calls perform zero rotation-engine
invocations (not exactly one) and leave the counter unchanged, so the claim
quantified over every process state is false. -/
theorem daily_cache_counterexample :
    engine_calls preCachedState 7 +
      engine_calls (generate_daily_menu_if_needed preCachedState 7 sampleCatalog 0 0).1 7 = 0 ∧
    (generate_daily_menu_if_needed preCachedState 7 sampleCatalog 0 0).1.menu_counter =
      preCachedState.menu_counter ∧
    (0 : Nat) ≠ 1 :=
  ⟨rfl, rfl, by decide⟩

/-- C5 (amended): for a catalog meeting the input contract, two successive
same-date calls return the identical selection, the second call leaves the
state unchanged and performs no rotation-engine invocation; across the two
calls the engine runs exactly once when today's menu was not already cached
(and zero additional times when it was). -/
theorem daily_cache_idempotent (st : BotState) (today : Nat) (mi : MenuInfo)
    (k1 k2 k1' k2' : Nat) (hv : ValidCatalog mi) :
    ∃ sel, (generate_daily_menu_if_needed st today mi k1 k2).2 = Except.ok sel ∧
      generate_daily_menu_if_needed
          (generate_daily_menu_if_needed st today mi k1 k2).1 today mi k1' k2' =
        ((generate_daily_menu_if_needed st today mi k1 k2).1, Except.ok sel) ∧
      engine_calls (generate_daily_menu_if_needed st today mi k1 k2).1 today = 0 ∧
      (cache_hit st today = false →
        engine_calls st today +
          engine_calls (generate_daily_menu_if_needed st today mi k1 k2).1 today = 1) := by
  by_cases hhit : cache_hit st today = true
  · have h1 : generate_daily_menu_if_needed st today mi k1 k2 =
        (st, Except.ok (st.daily_menu.getD [])) := by
      simp [generate_daily_menu_if_needed, hhit]
    refine ⟨st.daily_menu.getD [], ?_, ?_, ?_, ?_⟩
    · rw [h1]
    · rw [h1]
      simp [generate_daily_menu_if_needed, hhit]
    · rw [h1]
      simp [engine_calls, hhit]
    · intro hf
      rw [hhit] at hf
      simp at hf
  · rw [Bool.not_eq_true] at hhit
    obtain ⟨sel, hcr⟩ := create_ok_of_valid hv st.menu_counter k1 k2
    have h1 : generate_daily_menu_if_needed st today mi k1 k2 =
        ({ menu_counter := if (st.menu_counter + 1) % 21 = 0 then 0 else st.menu_counter + 1,
           daily_menu := some sel, last_generated_date := some today }, Except.ok sel) := by
      simp [generate_daily_menu_if_needed, hhit, hcr]
    refine ⟨sel, ?_, ?_, ?_, ?_⟩
    · rw [h1]
    · rw [h1]
      simp [generate_daily_menu_if_needed, cache_hit]
    · rw [h1]
      simp [engine_calls, cache_hit]
    · intro _
      have h2 : engine_calls st today = 1 := by simp [engine_calls, hhit]
      have h3 : engine_calls (generate_daily_menu_if_needed st today mi k1 k2).1 today = 0 := by
        rw [h1]
        simp [engine_calls, cache_hit]
      omega

/-- Witness for the amended C5 from the initial state on a concrete
catalog. -/
theorem daily_cache_idempotent_witness :
    ∃ sel, (generate_daily_menu_if_needed ⟨0, none, none⟩ 0 sampleCatalog 0 0).2 =
        Except.ok sel ∧
      generate_daily_menu_if_needed
          (generate_daily_menu_if_needed ⟨0, none, none⟩ 0 sampleCatalog 0 0).1 0
          sampleCatalog 1 1 =
        ((generate_daily_menu_if_needed ⟨0, none, none⟩ 0 sampleCatalog 0 0).1,
          Except.ok sel) ∧
      engine_calls (generate_daily_menu_if_needed ⟨0, none, none⟩ 0 sampleCatalog 0 0).1 0 = 0 ∧
      (cache_hit ⟨0, none, none⟩ 0 = false →
        engine_calls ⟨0, none, none⟩ 0 +
          engine_calls (generate_daily_menu_if_needed ⟨0, none, none⟩ 0 sampleCatalog 0 0).1 0 = 1) :=
  daily_cache_idempotent ⟨0, none, none⟩ 0 sampleCatalog 0 0 1 1 (by decide)

/-- C6 counterexample: starting from counter 20 with an empty cache, calling
on date 0 and then date 1 does trigger two rotation-engine invocations, yet
the counter ends at 1, not at 20 + 2 = 22: the 21st-call reset breaks the
advance-by-exactly-2 claim for this starting counter. -/
theorem day_rollover_counterexample :
    engine_calls ⟨20, none, none⟩ 0 +
      engine_calls (generate_daily_menu_if_needed ⟨20, none, none⟩ 0 sampleCatalog 0 0).1 1 = 2 ∧
    (generate_daily_menu_if_needed
        (generate_daily_menu_if_needed ⟨20, none, none⟩ 0 sampleCatalog 0 0).1 1
        sampleCatalog 0 0).1.menu_counter = 1 ∧
    (20 : Nat) + 2 ≠ 1 :=
  ⟨rfl, rfl, by decide⟩

/-- C6 (amended): for a catalog meeting the input contract and a date `d`
whose menu is not yet cached, calling on `d` and then on `d+1` triggers
exactly two rotation-engine invocations; and the counter advances by
exactly 2 provided neither post-increment value `c+1`, `c+2` is a multiple
of 21 (on a reset call it becomes 0 instead). -/
theorem day_rollover (st : BotState) (d : Nat) (mi : MenuInfo) (k1 k2 k1' k2' : Nat)
    (hv : ValidCatalog mi) (hmiss : cache_hit st d = false) :
    engine_calls st d +
      engine_calls (generate_daily_menu_if_needed st d mi k1 k2).1 (d + 1) = 2 ∧
    ((st.menu_counter + 1) % 21 ≠ 0 → (st.menu_counter + 2) % 21 ≠ 0 →
      (generate_daily_menu_if_needed
          (generate_daily_menu_if_needed st d mi k1 k2).1 (d + 1) mi k1' k2').1.menu_counter =
        st.menu_counter + 2) := by
  have hdne : ¬(d = d + 1) := by omega
  obtain ⟨sel, hcr⟩ := create_ok_of_valid hv st.menu_counter k1 k2
  have h1 : generate_daily_menu_if_needed st d mi k1 k2 =
      ({ menu_counter := if (st.menu_counter + 1) % 21 = 0 then 0 else st.menu_counter + 1,
         daily_menu := some sel, last_generated_date := some d }, Except.ok sel) := by
    simp [generate_daily_menu_if_needed, hmiss, hcr]
  constructor
  · have h2 : engine_calls st d = 1 := by simp [engine_calls, hmiss]
    have h3 : engine_calls (generate_daily_menu_if_needed st d mi k1 k2).1 (d + 1) = 1 := by
      rw [h1]
      simp [engine_calls, cache_hit, hdne]
    omega
  · intro ha hb
    rw [h1, if_neg ha]
    obtain ⟨sel2, hcr2⟩ := create_ok_of_valid hv (st.menu_counter + 1) k1' k2'
    have hb' : ¬(st.menu_counter + 1 + 1) % 21 = 0 := by omega
    have h2 : generate_daily_menu_if_needed ⟨st.menu_counter + 1, some sel, some d⟩ (d + 1)
        mi k1' k2' =
        ({ menu_counter := st.menu_counter + 1 + 1, daily_menu := some sel2,
           last_generated_date := some (d + 1) }, Except.ok sel2) := by
      simp [generate_daily_menu_if_needed, cache_hit, hdne, hcr2, hb']
    rw [h2]

/-- Witness for the amended C6 from the initial state on a concrete
catalog. -/
theorem day_rollover_witness :
    engine_calls ⟨0, none, none⟩ 3 +
      engine_calls (generate_daily_menu_if_needed ⟨0, none, none⟩ 3 sampleCatalog 0 0).1 (3 + 1) = 2 ∧
    (((⟨0, none, none⟩ : BotState).menu_counter + 1) % 21 ≠ 0 →
      ((⟨0, none, none⟩ : BotState).menu_counter + 2) % 21 ≠ 0 →
      (generate_daily_menu_if_needed
          (generate_daily_menu_if_needed ⟨0, none, none⟩ 3 sampleCatalog 0 0).1 (3 + 1)
          sampleCatalog 0 0).1.menu_counter =
        (⟨0, none, none⟩ : BotState).menu_counter + 2) :=
  day_rollover ⟨0, none, none⟩ 3 sampleCatalog 0 0 0 0 (by decide) rfl

/-- C7: the counter after one rotation-engine invocation is either `c + 1`
or 0, and (for a catalog with a non-empty `appetizers` category, as the
input contract requires) it is 0 exactly when the post-increment value
`c + 1` is a multiple of 21: the counter never decreases except through the
every-21st-call reset. -/
theorem counter_reset_invariant (c : Nat) (mi : MenuInfo) (k1 k2 : Nat)
    (ha : mi.appetizers ≠ []) :
    ((create_daily_menu c mi k1 k2).1 = c + 1 ∨ (create_daily_menu c mi k1 k2).1 = 0) ∧
    ((create_daily_menu c mi k1 k2).1 = 0 ↔ (c + 1) % 21 = 0) := by
  by_cases h21 : (c + 1) % 21 = 0
  · obtain ⟨a, hamem, hae⟩ := randomChoice_of_ne_nil mi.appetizers k1 ha
    have hcr : create_daily_menu c mi k1 k2 = (0, Except.ok [(cheatLabel, a)]) := by
      simp [create_daily_menu, h21, hae]
    rw [hcr]
    exact ⟨Or.inr rfl, by simp [h21]⟩
  · have h1 := create_counter_of_not_reset c mi k1 k2 h21
    rw [h1]
    refine ⟨Or.inl rfl, ?_, ?_⟩
    · intro h0
      omega
    · intro hh
      exact absurd hh h21

/-- Witness for C7 at counter 20 on a concrete catalog. -/
theorem counter_reset_invariant_witness :
    ((create_daily_menu 20 sampleCatalog 0 0).1 = 20 + 1 ∨
      (create_daily_menu 20 sampleCatalog 0 0).1 = 0) ∧
    ((create_daily_menu 20 sampleCatalog 0 0).1 = 0 ↔ (20 + 1) % 21 = 0) :=
  counter_reset_invariant 20 sampleCatalog 0 0 (by decide)

/-- C8: when `generate_daily_menu_if_needed` propagates the pairing-rule
`ValueError`, the counter has already been incremented by 1, the cache
fields are unchanged, and a subsequent same-date call invokes the rotation
engine again (one more engine invocation) instead of returning a cached
menu. -/
theorem pairing_error_state (st : BotState) (today : Nat) (mi : MenuInfo) (k1 k2 : Nat)
    (st' : BotState) (msg : String)
    (h : generate_daily_menu_if_needed st today mi k1 k2 =
      (st', Except.error (MenuError.valueError msg))) :
    st'.menu_counter = st.menu_counter + 1 ∧ st'.daily_menu = st.daily_menu ∧
    st'.last_generated_date = st.last_generated_date ∧ engine_calls st' today = 1 := by
  by_cases hhit : cache_hit st today = true
  · rw [generate_daily_menu_if_needed.eq_def, if_pos hhit] at h
    simp at h
  · rw [Bool.not_eq_true] at hhit
    rcases hc : create_daily_menu st.menu_counter mi k1 k2 with ⟨c', r⟩
    cases r with
    | ok sel =>
      rw [generate_daily_menu_if_needed.eq_def, if_neg (by simp [hhit]), hc] at h
      simp at h
    | error e =>
      rw [generate_daily_menu_if_needed.eq_def, if_neg (by simp [hhit]), hc] at h
      have h1 : ({ st with menu_counter := c' } : BotState) = st' := congrArg Prod.fst h
      have hc1 : c' = st.menu_counter + 1 := create_error_counter hc
      subst h1
      have hhit' : cache_hit ({ st with menu_counter := c' } : BotState) today = false := hhit
      exact ⟨hc1, rfl, rfl, by simp [engine_calls, hhit']⟩

/-- Witness for C8: counter 3 on the Borscht-without-Sour-Cream catalog. -/
theorem pairing_error_state_witness :
    (⟨4, none, none⟩ : BotState).menu_counter =
      (⟨3, none, none⟩ : BotState).menu_counter + 1 ∧
    (⟨4, none, none⟩ : BotState).daily_menu = (⟨3, none, none⟩ : BotState).daily_menu ∧
    (⟨4, none, none⟩ : BotState).last_generated_date =
      (⟨3, none, none⟩ : BotState).last_generated_date ∧
    engine_calls ⟨4, none, none⟩ 0 = 1 :=
  pairing_error_state ⟨3, none, none⟩ 0 borschtNoCreamCatalog 0 0 ⟨4, none, none⟩
    sauceNotFoundMsg rfl

/-- C9: whenever a category required by the active branch is empty,
`create_daily_menu` fails with an explicit error (an `IndexError` from
`random.choice` or the pairing `ValueError`) instead of returning a null or
garbage item. -/
theorem empty_category_error (c : Nat) (mi : MenuInfo) (k1 k2 : Nat)
    (h : required_category_empty c mi) :
    ∃ e, (create_daily_menu c mi k1 k2).2 = Except.error e := by
  rcases h with ⟨h21, hap⟩ | ⟨h21, h4, hpf⟩ | ⟨h21, h4, hcs⟩
  · exact ⟨MenuError.indexError, by simp [create_daily_menu, h21, hap, randomChoice]⟩
  · rcases hpf with hprot | hfib
    · exact ⟨MenuError.indexError,
        by simp [create_daily_menu, h21, h4, hprot, randomChoice]⟩
    · by_cases hprot : mi.proteins = []
      · exact ⟨MenuError.indexError,
          by simp [create_daily_menu, h21, h4, hprot, randomChoice]⟩
      · obtain ⟨m, hmmem, hme⟩ := randomChoice_of_ne_nil mi.proteins k1 hprot
        exact ⟨MenuError.indexError,
          by simp [create_daily_menu, h21, h4, hme, hfib, randomChoice_nil]⟩
  · rcases hcs with hcarb | hsauce
    · exact ⟨MenuError.indexError,
        by simp [create_daily_menu, h21, h4, hcarb, randomChoice]⟩
    · by_cases hcarb : mi.carbohydrates = []
      · exact ⟨MenuError.indexError,
          by simp [create_daily_menu, h21, h4, hcarb, randomChoice]⟩
      · obtain ⟨g, hgmem, hge⟩ := randomChoice_of_ne_nil mi.carbohydrates k1 hcarb
        by_cases hb : g.name = borschtName
        · exact ⟨MenuError.valueError sauceNotFoundMsg,
            by simp [create_daily_menu, h21, h4, hge, hb, hsauce]⟩
        · exact ⟨MenuError.indexError,
            by simp [create_daily_menu, h21, h4, hge, hb, hsauce, randomChoice_nil]⟩

/-- Witness for C9: counter 0 takes the protein branch and the concrete
catalog has an empty `proteins` category. -/
theorem empty_category_error_witness :
    ∃ e, (create_daily_menu 0 emptyProteinsCatalog 0 0).2 = Except.error e :=
  empty_category_error 0 emptyProteinsCatalog 0 0
    (by unfold required_category_empty; decide)

/-- C10: as a transformer of the full module state, one `create_daily_menu`
invocation leaves the catalog global `menu_data` and the cache globals
`daily_menu` and `last_generated_date` unchanged: the rotation counter is
the only state it mutates. -/
theorem rotation_engine_frame (st : ProcState) (k1 k2 : Nat) :
    (create_daily_menu_proc st k1 k2).1.menu_data = st.menu_data ∧
    (create_daily_menu_proc st k1 k2).1.daily_menu = st.daily_menu ∧
    (create_daily_menu_proc st k1 k2).1.last_generated_date = st.last_generated_date :=
  ⟨rfl, rfl, rfl⟩
